import Mathlib

/-!
Verification of the FedEx SmartRecover AI engine
(src/FedEx-SmartRecover-Hackathon_Final/1_AI_Model_Engine/ai_engine.py).

The engine is a linear batch pipeline: raw records are validated, each
valid record receives a hybrid (rule + simulated-ML) collectability score
and a confidence, an ordered list of governance gates assigns a collection
agency, portfolio KPIs are aggregated, and an anonymized snapshot is
exported with a SHA-256-tokenized id per record.

Numeric fields are modelled over the rationals, which realize the exact
decimal arithmetic the formulas in the source denote.  Decimal literals
such as 0.3 denote the exact rational 3/10.
-/

namespace SmartRecover

/-- Raw input row as read from the input batch: account identifier, debt
amount, days overdue, customer segment and the 0/1 dispute flag
(the source compares it against the literal 1). -/
structure RawRecord where
  account_id : String
  amount : ℚ
  days_overdue : ℤ
  customer_segment : String
  dispute_history : ℤ
deriving DecidableEq, Repr

/-- Governance thresholds loaded from config/thresholds.yaml: the US legal
dispute penalty and the allocation-rule and exception-handling thresholds
read by the scorer and the router. -/
structure GovernanceConfig where
  legal_dispute_penalty : ℚ
  high_confidence_threshold : ℚ
  high_p2p_threshold : ℚ
  high_value_cutoff : ℚ
  low_value_cutoff : ℚ
  p2p_critical_threshold : ℚ
deriving DecidableEq, Repr

/-- Mirrors validate_data (ai_engine.py lines 21-36): three sequential
pandas filters, amount greater than 0, days_overdue at least 0, and
customer_segment among the valid segments; the second component is the
number of discarded rows reported by the audit print. -/
def validate_data (df : List RawRecord) : List RawRecord × ℕ :=
  let initial_count := df.length
  let df1 := df.filter (fun r => decide (r.amount > 0))
  let df2 := df1.filter (fun r => decide (r.days_overdue ≥ 0))
  let df3 := df2.filter (fun r => ["Retail", "SME", "Enterprise"].contains r.customer_segment)
  (df3, initial_count - df3.length)

/-- Mirrors the segment_weights dict lookup with default 0 used for the
simulated-ML score (ai_engine.py line 57-58). -/
def segment_weights (seg : String) : ℚ :=
  if seg = "Enterprise" then 0
  else if seg = "SME" then 3
  else if seg = "Retail" then -2
  else 0

/-- Mirrors calculate_hybrid_score (ai_engine.py lines 38-70).  The config
argument is optional exactly as in the source, where a missing config
falls back to the inline defaults. -/
def calculate_hybrid_score (row : RawRecord) (config : Option GovernanceConfig) : ℚ × ℚ :=
  let rule_score : ℚ := 100 - (row.days_overdue : ℚ) * 0.3
  let penalty : ℚ := match config with
    | some c => c.legal_dispute_penalty
    | none => 25
  let rule_score := if row.dispute_history = 1 then rule_score - penalty else rule_score
  let rule_score := if row.customer_segment = "SME" then rule_score + 5 else rule_score
  let ml_score : ℚ := 85 - (row.days_overdue : ℚ) * 0.25 + segment_weights row.customer_segment
  let hybrid := 0.6 * ml_score + 0.4 * rule_score
  let confidence := 1 - |ml_score - rule_score| / 100
  (max 0 (min 100 hybrid), max 0.6 (min 0.95 confidence))

/-- Record carrying the two scorer outputs alongside the raw fields,
matching the two columns the pipeline adds to the dataframe. -/
structure ScoredRecord where
  account_id : String
  amount : ℚ
  days_overdue : ℤ
  customer_segment : String
  dispute_history : ℤ
  p2p_score : ℚ
  p2p_confidence : ℚ
deriving DecidableEq, Repr

/-- Mirrors assign_dca_with_governance (ai_engine.py lines 72-97): the
ordered if chain of six governance gates, first match wins. -/
def assign_dca_with_governance (row : ScoredRecord) (config : Option GovernanceConfig)
    (confidence : ℚ) : String :=
  let threshold : ℚ := match config with
    | some c => c.high_confidence_threshold
    | none => 0.7
  if confidence < threshold then "MANUAL_REVIEW_REQUIRED"
  else
    let high_p2p : ℚ := match config with
      | some c => c.high_p2p_threshold
      | none => 75
    let high_val : ℚ := match config with
      | some c => c.high_value_cutoff
      | none => 5000
    if row.p2p_score > high_p2p ∧ row.amount > high_val then "FedEx Internal Team"
    else if row.dispute_history = 1 then "DCA_Alpha_Legal"
    else
      let low_val : ℚ := match config with
        | some c => c.low_value_cutoff
        | none => 500
      if row.amount < low_val ∨ row.customer_segment = "Retail" then "DCA_Beta_Digital"
      else
        let crit_p2p : ℚ := match config with
          | some c => c.p2p_critical_threshold
          | none => 10
        if row.p2p_score < crit_p2p then "DCA_Gamma_Recovery"
        else "DCA_General_Partners"

/-- Record after routing: the scored fields plus the assigned agency and
the manual-review flag columns added by main. -/
structure AllocatedRecord where
  account_id : String
  amount : ℚ
  days_overdue : ℤ
  customer_segment : String
  dispute_history : ℤ
  p2p_score : ℚ
  p2p_confidence : ℚ
  assigned_agency : String
  requires_manual_review : Bool
deriving DecidableEq, Repr

/-- The numeric values behind the six executive KPI entries assembled by
calculate_enterprise_kpis; the source wraps them in display format
strings, which is presentation only. -/
structure EnterpriseKpis where
  portfolio_value : ℚ
  expected_recovery_value : ℚ
  commission_savings_90d : ℚ
  auto_allocation_rate : ℚ
  high_risk_cases : ℕ
  avg_confidence_score : ℚ
deriving DecidableEq, Repr

/-- Mirrors calculate_enterprise_kpis (ai_engine.py lines 99-121).  With an
empty batch the source raises ZeroDivisionError at the auto_rate division,
modelled here as none; otherwise the six metrics are computed as in the
source (the intermediate expected_recovery column becomes a map). -/
def calculate_enterprise_kpis (df : List AllocatedRecord) : Option EnterpriseKpis :=
  if df.length = 0 then none
  else
    let total_portfolio := (df.map (fun r => r.amount)).sum
    let expected_value := (df.map (fun r => r.amount * (r.p2p_score / 100))).sum
    let internal_cases := df.filter (fun r => r.assigned_agency = "FedEx Internal Team")
    let commission_savings := ((internal_cases.map (fun r => r.amount)).sum) * 0.12
    let auto_rate := ((df.filter (fun r => r.requires_manual_review = false)).length : ℚ) / (df.length : ℚ)
    some
      { portfolio_value := total_portfolio
        expected_recovery_value := expected_value
        commission_savings_90d := commission_savings * 3
        auto_allocation_rate := auto_rate
        high_risk_cases := (df.filter (fun r => decide (r.p2p_score < 30))).length
        avg_confidence_score := (df.map (fun r => r.p2p_confidence)).sum / (df.length : ℚ) }

/-- Anonymized per-record entry of the exported snapshot: exactly the six
columns main selects into the allocations list (ai_engine.py lines
184-187); the raw account_id is not one of them. -/
structure Allocation where
  tokenized_id : String
  amount : ℚ
  p2p_score : ℚ
  p2p_confidence : ℚ
  assigned_agency : String
  requires_manual_review : Bool
deriving DecidableEq, Repr

/-- Hard-coded governance flags block of the snapshot metadata
(ai_engine.py lines 178-182). -/
structure GovernanceFlags where
  data_quality_score : ℚ
  fairness_variance : ℚ
  retraining_eligible : Bool
deriving DecidableEq, Repr

/-- Snapshot metadata: timestamp, version tag, KPI block and governance
flags (ai_engine.py lines 174-183). -/
structure SnapshotMeta where
  timestamp : String
  version : String
  kpis : EnterpriseKpis
  governance_flags : GovernanceFlags
deriving DecidableEq, Repr

/-- The exported snapshot written to processed_allocations.json: metadata
plus the ordered anonymized allocations list. -/
structure Snapshot where
  meta : SnapshotMeta
  allocations : List Allocation
deriving DecidableEq, Repr

/-!
SHA-256 (FIPS 180-4), the hash behind hashlib.sha256 used by the
tokenizer in main.  Words are naturals reduced modulo 2^32.
-/

/-- Reduce a natural to a 32-bit word. -/
def w32 (x : ℕ) : ℕ := x % 4294967296

/-- Right rotation of a 32-bit word by n bits. -/
def rotr32 (n x : ℕ) : ℕ := w32 (x >>> n ||| x <<< (32 - n))

/-- Big sigma 0 of the SHA-256 compression function. -/
def bigSigma0 (x : ℕ) : ℕ := rotr32 2 x ^^^ rotr32 13 x ^^^ rotr32 22 x

/-- Big sigma 1 of the SHA-256 compression function. -/
def bigSigma1 (x : ℕ) : ℕ := rotr32 6 x ^^^ rotr32 11 x ^^^ rotr32 25 x

/-- Small sigma 0 of the SHA-256 message schedule. -/
def smallSigma0 (x : ℕ) : ℕ := rotr32 7 x ^^^ rotr32 18 x ^^^ (x >>> 3)

/-- Small sigma 1 of the SHA-256 message schedule. -/
def smallSigma1 (x : ℕ) : ℕ := rotr32 17 x ^^^ rotr32 19 x ^^^ (x >>> 10)

/-- The SHA-256 choice function; the complement is taken against the
32-bit mask. -/
def chF (x y z : ℕ) : ℕ := (x &&& y) ^^^ ((4294967295 ^^^ x) &&& z)

/-- The SHA-256 majority function. -/
def majF (x y z : ℕ) : ℕ := (x &&& y) ^^^ (x &&& z) ^^^ (y &&& z)

/-- The 64 SHA-256 round constants of FIPS 180-4, written in decimal. -/
def K256 : List ℕ :=
  [1116352408, 1899447441, 3049323471, 3921009573, 961987163,
   1508970993, 2453635748, 2870763221, 3624381080, 310598401,
   607225278, 1426881987, 1925078388, 2162078206, 2614888103,
   3248222580, 3835390401, 4022224774, 264347078, 604807628,
   770255983, 1249150122, 1555081692, 1996064986, 2554220882,
   2821834349, 2952996808, 3210313671, 3336571891, 3584528711,
   113926993, 338241895, 666307205, 773529912, 1294757372,
   1396182291, 1695183700, 1986661051, 2177026350, 2456956037,
   2730485921, 2820302411, 3259730800, 3345764771, 3516065817,
   3600352804, 4094571909, 275423344, 430227734, 506948616,
   659060556, 883997877, 958139571, 1322822218, 1537002063,
   1747873779, 1955562222, 2024104815, 2227730452, 2361852424,
   2428436474, 2756734187, 3204031479, 3329325298]

/-- The eight initial SHA-256 hash values, written in decimal. -/
def H256 : List ℕ :=
  [1779033703, 3144134277, 1013904242, 2773480762,
   1359893119, 2600822924, 528734635, 1541459225]

/-- UTF-8 encoding of one code point, as Python encode produces. -/
def utf8Bytes (c : ℕ) : List ℕ :=
  if c < 0x80 then [c]
  else if c < 0x800 then [0xc0 ||| (c >>> 6), 0x80 ||| (c &&& 0x3f)]
  else if c < 0x10000 then
    [0xe0 ||| (c >>> 12), 0x80 ||| ((c >>> 6) &&& 0x3f), 0x80 ||| (c &&& 0x3f)]
  else
    [0xf0 ||| (c >>> 18), 0x80 ||| ((c >>> 12) &&& 0x3f),
     0x80 ||| ((c >>> 6) &&& 0x3f), 0x80 ||| (c &&& 0x3f)]

/-- UTF-8 byte sequence of a string. -/
def strBytes (s : String) : List ℕ := (s.data.map (fun c => utf8Bytes c.toNat)).flatten

/-- Big-endian byte expansion of a natural into n bytes. -/
def beBytes (n v : ℕ) : List ℕ := (List.range n).map (fun i => (v >>> (8 * (n - 1 - i))) % 256)

/-- SHA-256 padding: append the 0x80 marker, zero bytes up to 56 mod 64,
then the 8-byte big-endian bit length. -/
def padMsg (m : List ℕ) : List ℕ :=
  let len := m.length
  let k := (120 - ((len + 1) % 64)) % 64
  m ++ [0x80] ++ List.replicate k 0 ++ beBytes 8 (8 * len)

/-- Structural worker splitting a byte list into 64-byte chunks; the fuel
bounds the number of chunks and is instantiated with the list length. -/
def chunks64Aux : ℕ → List ℕ → List (List ℕ)
  | 0, _ => []
  | _, [] => []
  | fuel + 1, l => l.take 64 :: chunks64Aux fuel (l.drop 64)

/-- Split a byte list into 64-byte chunks. -/
def chunks64 (l : List ℕ) : List (List ℕ) := chunks64Aux l.length l

/-- Pack big-endian bytes into 32-bit words, four bytes per word. -/
def wordsOfBytes : List ℕ → List ℕ
  | b0 :: b1 :: b2 :: b3 :: rest =>
      (b0 <<< 24 ||| b1 <<< 16 ||| b2 <<< 8 ||| b3) :: wordsOfBytes rest
  | _ => []

/-- One message-schedule extension step, appending word t from words
t-2, t-7, t-15 and t-16. -/
def schedStep (w : List ℕ) : List ℕ :=
  let t := w.length
  w ++ [w32 (smallSigma1 (w.getD (t - 2) 0) + w.getD (t - 7) 0 +
             smallSigma0 (w.getD (t - 15) 0) + w.getD (t - 16) 0)]

/-- Extend the 16 chunk words to the 64-word message schedule. -/
def buildSchedule (w : List ℕ) : List ℕ :=
  (List.range 48).foldl (fun acc _ => schedStep acc) w

/-- One SHA-256 compression round on the eight-word working state, fed the
round constant paired with the schedule word. -/
def compressRound (st : List ℕ) (kw : ℕ × ℕ) : List ℕ :=
  match st with
  | [a, b, c, d, e, f, g, h] =>
      let t1 := w32 (h + bigSigma1 e + chF e f g + kw.1 + kw.2)
      let t2 := w32 (bigSigma0 a + majF a b c)
      [w32 (t1 + t2), a, b, c, w32 (d + t1), e, f, g]
  | other => other

/-- Process one 64-byte chunk: run the 64 rounds from the current hash
state and add the result back in. -/
def processChunk (h : List ℕ) (chunk : List ℕ) : List ℕ :=
  let ws := buildSchedule (wordsOfBytes chunk)
  let st := (K256.zip ws).foldl compressRound h
  (h.zip st).map (fun p => w32 (p.1 + p.2))

/-- Lowercase hex digit character for a value below 16. -/
def hexChar (n : ℕ) : Char :=
  if n < 10 then Char.ofNat (48 + n) else Char.ofNat (87 + n)

/-- Eight-character lowercase hex rendering of a 32-bit word. -/
def toHex8 (v : ℕ) : String :=
  String.mk ((List.range 8).map (fun i => hexChar ((v >>> (4 * (7 - i))) % 16)))

/-- Hex digest of SHA-256 over the UTF-8 bytes of a string, mirroring
hashlib.sha256 combined with hexdigest in the tokenizer. -/
def sha256Hex (s : String) : String :=
  let hs := (chunks64 (padMsg (strBytes s))).foldl processChunk H256
  String.join (hs.map toHex8)

/-- Mirrors the tokenized_id derivation of main (ai_engine.py lines
168-170): the FED- prefix followed by the first 8 hex characters of the
SHA-256 digest of the account id. -/
def tokenize (account_id : String) : String :=
  "FED-" ++ (sha256Hex account_id).take 8

/-!
The main pipeline (ai_engine.py lines 123-196), with the two file reads
abstracted as optional inputs (none models a missing file) and the wall
clock timestamp as an explicit argument.
-/

/-- Row-wise application of the scorer, adding the p2p_score and
p2p_confidence columns (ai_engine.py lines 147-150). -/
def scoreRecord (config : Option GovernanceConfig) (r : RawRecord) : ScoredRecord :=
  let sc := calculate_hybrid_score r config
  { account_id := r.account_id, amount := r.amount, days_overdue := r.days_overdue,
    customer_segment := r.customer_segment, dispute_history := r.dispute_history,
    p2p_score := sc.1, p2p_confidence := sc.2 }

/-- Row-wise routing plus the requires_manual_review column derived from
the confidence threshold (ai_engine.py lines 154-161); inside main the
config is always present. -/
def allocateRecord (cfg : GovernanceConfig) (r : ScoredRecord) : AllocatedRecord :=
  { account_id := r.account_id, amount := r.amount, days_overdue := r.days_overdue,
    customer_segment := r.customer_segment, dispute_history := r.dispute_history,
    p2p_score := r.p2p_score, p2p_confidence := r.p2p_confidence,
    assigned_agency := assign_dca_with_governance r (some cfg) r.p2p_confidence,
    requires_manual_review := decide (r.p2p_confidence < cfg.high_confidence_threshold) }

/-- The routed batch of the run: validated rows, scored then allocated in
order. -/
def pipeline_allocated (cfg : GovernanceConfig) (input : List RawRecord) : List AllocatedRecord :=
  (((validate_data input).1).map (scoreRecord (some cfg))).map (allocateRecord cfg)

/-- Projection of an allocated record onto the six anonymized columns main
selects into the snapshot, with the tokenized id in place of the raw
account id (ai_engine.py lines 167-187). -/
def exportAllocation (r : AllocatedRecord) : Allocation :=
  { tokenized_id := tokenize r.account_id, amount := r.amount, p2p_score := r.p2p_score,
    p2p_confidence := r.p2p_confidence, assigned_agency := r.assigned_agency,
    requires_manual_review := r.requires_manual_review }

/-- Mirrors main (ai_engine.py lines 123-196): a missing config or input
file, or a batch left empty by validation, ends the run with no snapshot;
otherwise the scored, routed batch is aggregated and exported. -/
def main_pipeline (config : Option GovernanceConfig) (input : Option (List RawRecord))
    (now : String) : Option Snapshot :=
  match config with
  | none => none
  | some cfg =>
    match input with
    | none => none
    | some raw =>
      if ((validate_data raw).1).isEmpty then none
      else
        let allocated := pipeline_allocated cfg raw
        match calculate_enterprise_kpis allocated with
        | none => none
        | some kpis =>
            some
              { meta :=
                  { timestamp := now, version := "SmartRecover v2.0", kpis := kpis,
                    governance_flags :=
                      { data_quality_score := 0.94, fairness_variance := 0.08,
                        retraining_eligible := true } },
                allocations := allocated.map exportAllocation }

/-!
Specification-side definitions, written from the words of the spec for
comparison with the source-derived ones above.
-/

/-- Rule score as the spec words it: start at 100, subtract 0.3 per day
overdue, subtract the US legal dispute penalty when the dispute flag is
set, add 5 for the SME segment. -/
def spec_rule_score (row : RawRecord) (cfg : GovernanceConfig) : ℚ :=
  100 - 0.3 * (row.days_overdue : ℚ)
    - (if row.dispute_history = 1 then cfg.legal_dispute_penalty else 0)
    + (if row.customer_segment = "SME" then 5 else 0)

/-- Simulated-learned score as the spec words it: start at 85, subtract
0.25 per day overdue, add the segment adjustment Enterprise 0, SME 3,
Retail minus 2. -/
def spec_learned_score (row : RawRecord) : ℚ :=
  85 - 0.25 * (row.days_overdue : ℚ)
    + (if row.customer_segment = "Enterprise" then 0
       else if row.customer_segment = "SME" then 3 else -2)

/-- Hybrid score and confidence as the spec words them: the 60/40 blend
clamped to the 0..100 range, and one minus the scaled disagreement
clamped to the 0.6..0.95 range. -/
def spec_hybrid_score (row : RawRecord) (cfg : GovernanceConfig) : ℚ × ℚ :=
  let rule := spec_rule_score row cfg
  let learned := spec_learned_score row
  (max 0 (min 100 (0.6 * learned + 0.4 * rule)),
   max 0.6 (min 0.95 (1 - |learned - rule| / 100)))

/-- First-match evaluation of an ordered gate list: the outcome of the
first gate whose condition holds, or the default when none does. -/
def first_match : List (Bool × String) → String → String
  | [], d => d
  | g :: rest, d => if g.1 then g.2 else first_match rest d

/-- The five conditional governance gates in the order the router lists
them; the sixth outcome is the first_match default. -/
def governance_gates (row : ScoredRecord) (cfg : GovernanceConfig) (confidence : ℚ) :
    List (Bool × String) :=
  [(decide (confidence < cfg.high_confidence_threshold), "MANUAL_REVIEW_REQUIRED"),
   (decide (row.p2p_score > cfg.high_p2p_threshold ∧ row.amount > cfg.high_value_cutoff),
     "FedEx Internal Team"),
   (decide (row.dispute_history = 1), "DCA_Alpha_Legal"),
   (decide (row.amount < cfg.low_value_cutoff ∨ row.customer_segment = "Retail"),
     "DCA_Beta_Digital"),
   (decide (row.p2p_score < cfg.p2p_critical_threshold), "DCA_Gamma_Recovery")]

/-- The six possible channel assignments. -/
def agency_values : List String :=
  ["MANUAL_REVIEW_REQUIRED", "FedEx Internal Team", "DCA_Alpha_Legal",
   "DCA_Beta_Digital", "DCA_Gamma_Recovery", "DCA_General_Partners"]

/-- The default thresholds named by the spec scenarios, matching both the
config shipped with the engine and the inline fallbacks. -/
def default_thresholds : GovernanceConfig :=
  { legal_dispute_penalty := 25, high_confidence_threshold := 0.7,
    high_p2p_threshold := 75, high_value_cutoff := 5000,
    low_value_cutoff := 500, p2p_critical_threshold := 10 }

/-- A snapshot with the timestamp field cleared, for comparing two runs up
to the wall clock. -/
def snapshot_core (s : Snapshot) : Snapshot :=
  { s with meta := { s.meta with timestamp := "" } }

/-- C1: for every validated record and config the hybrid scorer returns the
clamped 60/40 blend of the learned and rule scores with the clamped
disagreement confidence, exactly as the spec words them, and on the
scenario record with amount 6000, 10 days overdue, Enterprise segment and
no dispute it returns exactly (88.3, 0.855) under the default
thresholds. -/
theorem hybrid_score_correct (row : RawRecord) (cfg : GovernanceConfig)
    (h : row.customer_segment ∈ ["Retail", "SME", "Enterprise"]) :
    calculate_hybrid_score row (some cfg) = spec_hybrid_score row cfg ∧
    calculate_hybrid_score ⟨"A1", 6000, 10, "Enterprise", 0⟩ (some default_thresholds)
      = (88.3, 0.855) := by
  constructor
  · simp only [List.mem_cons, List.not_mem_nil, or_false] at h
    simp only [calculate_hybrid_score, spec_hybrid_score, spec_rule_score, spec_learned_score,
      segment_weights]
    rcases h with h | h | h <;> rw [h] <;> simp <;> split_ifs <;> ring_nf <;> simp
  · simp [calculate_hybrid_score, segment_weights, default_thresholds]
    norm_num [min_def, max_def, abs_of_nonneg]

/-- Witness instantiating hybrid_score_correct at the scenario record and
default thresholds. -/
theorem hybrid_score_correct_witness :
    calculate_hybrid_score ⟨"A1", 6000, 10, "Enterprise", 0⟩ (some default_thresholds)
      = spec_hybrid_score ⟨"A1", 6000, 10, "Enterprise", 0⟩ default_thresholds ∧
    calculate_hybrid_score ⟨"A1", 6000, 10, "Enterprise", 0⟩ (some default_thresholds)
      = (88.3, 0.855) :=
  hybrid_score_correct ⟨"A1", 6000, 10, "Enterprise", 0⟩ default_thresholds (by decide)

/-- C4: for every record and config, scorer outputs are clamped, the score
into the interval from 0 to 100 and the confidence into the interval from
0.6 to 0.95, whatever the input fields. -/
theorem score_range (row : RawRecord) (config : Option GovernanceConfig) :
    0 ≤ (calculate_hybrid_score row config).1 ∧
    (calculate_hybrid_score row config).1 ≤ 100 ∧
    0.6 ≤ (calculate_hybrid_score row config).2 ∧
    (calculate_hybrid_score row config).2 ≤ 0.95 := by
  unfold calculate_hybrid_score
  refine ⟨le_max_left _ _, ?_, le_max_left _ _, ?_⟩ <;>
    exact max_le (by norm_num) (min_le_left _ _)

/-- C10: the scorer reads neither the amount nor the account id; two
records agreeing on days overdue, dispute flag and segment receive the
same score and confidence under any config. -/
theorem score_ignores_amount_and_id (r1 r2 : RawRecord) (config : Option GovernanceConfig)
    (hd : r1.days_overdue = r2.days_overdue)
    (hh : r1.dispute_history = r2.dispute_history)
    (hs : r1.customer_segment = r2.customer_segment) :
    calculate_hybrid_score r1 config = calculate_hybrid_score r2 config := by
  unfold calculate_hybrid_score
  rw [hd, hh, hs]

/-- Witness instantiating score_ignores_amount_and_id on two records that
differ in amount and account id only. -/
theorem score_ignores_amount_and_id_witness :
    calculate_hybrid_score ⟨"A1", 6000, 10, "Enterprise", 0⟩ (some default_thresholds)
      = calculate_hybrid_score ⟨"B2", 1, 10, "Enterprise", 0⟩ (some default_thresholds) :=
  score_ignores_amount_and_id ⟨"A1", 6000, 10, "Enterprise", 0⟩
    ⟨"B2", 1, 10, "Enterprise", 0⟩ (some default_thresholds) rfl rfl rfl

/-- C2: the router realizes first-match evaluation of its six ordered
gates, its result is always one of the six enumerated channel values, and
a record meeting both the gate 2 and gate 3 conditions with confidence at
or above the threshold is assigned to the internal team, gate 2 winning by
position. -/
theorem routing_gates_ordered (row : ScoredRecord) (cfg : GovernanceConfig) (confidence : ℚ) :
    assign_dca_with_governance row (some cfg) confidence ∈ agency_values ∧
    assign_dca_with_governance row (some cfg) confidence
      = first_match (governance_gates row cfg confidence) "DCA_General_Partners" ∧
    (¬ confidence < cfg.high_confidence_threshold →
      row.p2p_score > cfg.high_p2p_threshold → row.amount > cfg.high_value_cutoff →
      row.dispute_history = 1 →
      assign_dca_with_governance row (some cfg) confidence = "FedEx Internal Team") := by
  refine ⟨?_, ?_, ?_⟩
  · simp only [assign_dca_with_governance, agency_values]
    split_ifs <;> simp
  · by_cases h1 : confidence < cfg.high_confidence_threshold <;>
    by_cases h2 : row.p2p_score > cfg.high_p2p_threshold ∧ row.amount > cfg.high_value_cutoff <;>
    by_cases h3 : row.dispute_history = 1 <;>
    by_cases h4 : row.amount < cfg.low_value_cutoff ∨ row.customer_segment = "Retail" <;>
    by_cases h5 : row.p2p_score < cfg.p2p_critical_threshold <;>
    simp [assign_dca_with_governance, governance_gates, first_match, h1, h2, h3, h4, h5]
  · intro hn h2a h2b _
    simp [assign_dca_with_governance, hn, h2a, h2b]

/-- Witness instantiating routing_gates_ordered on a record that meets the
gate 2 and gate 3 conditions at once. -/
theorem routing_gates_ordered_witness :
    assign_dca_with_governance ⟨"W2", 6000, 0, "Enterprise", 1, 80, 0.9⟩
      (some default_thresholds) 0.9 = "FedEx Internal Team" :=
  (routing_gates_ordered ⟨"W2", 6000, 0, "Enterprise", 1, 80, 0.9⟩ default_thresholds 0.9).2.2
    (by norm_num [default_thresholds]) (by norm_num [default_thresholds])
    (by norm_num [default_thresholds]) rfl

/-- C3: the manual review flag the pipeline attaches is true exactly when
the confidence is strictly below the high-confidence threshold, and that
holds exactly when the assigned agency is the manual review channel, gate
1 being the only gate that can produce either. -/
theorem manual_review_consistency (cfg : GovernanceConfig) (r : ScoredRecord) :
    ((allocateRecord cfg r).requires_manual_review = true ↔
      r.p2p_confidence < cfg.high_confidence_threshold) ∧
    ((allocateRecord cfg r).requires_manual_review = true ↔
      (allocateRecord cfg r).assigned_agency = "MANUAL_REVIEW_REQUIRED") := by
  simp only [allocateRecord, assign_dca_with_governance]
  constructor
  · simp
  · split_ifs <;> simp_all

/-- C5: the validator returns exactly the in-order subsequence of input
rows with positive amount, nonnegative days overdue and a valid segment,
each retained row unchanged, and reports the number of dropped rows. -/
theorem validator_filters (df : List RawRecord) :
    (validate_data df).1 = df.filter (fun r =>
      decide (r.amount > 0) && decide (r.days_overdue ≥ 0) &&
        ["Retail", "SME", "Enterprise"].contains r.customer_segment) ∧
    ((validate_data df).1).Sublist df ∧
    (validate_data df).2 = df.length - ((validate_data df).1).length ∧
    (∀ r : RawRecord, r ∈ (validate_data df).1 ↔
      r ∈ df ∧ r.amount > 0 ∧ r.days_overdue ≥ 0 ∧
        r.customer_segment ∈ ["Retail", "SME", "Enterprise"]) := by
  refine ⟨?_, ?_, rfl, ?_⟩
  · simp only [validate_data, List.filter_filter]
    congr 1
    funext r
    rcases Decidable.em (r.amount > 0) with h1 | h1 <;>
      rcases Decidable.em (r.days_overdue ≥ 0) with h2 | h2 <;>
      simp [h1, h2]
  · exact ((List.filter_sublist _).trans (List.filter_sublist _)).trans (List.filter_sublist _)
  · intro r
    simp only [validate_data, List.mem_filter, decide_eq_true_eq]
    constructor
    · rintro ⟨⟨⟨hmem, h1⟩, h2⟩, h3⟩
      exact ⟨hmem, h1, h2, by simpa using h3⟩
    · rintro ⟨hmem, h1, h2, h3⟩
      exact ⟨⟨⟨hmem, h1⟩, h2⟩, by simpa using h3⟩

/-- C6: on a non-empty batch the aggregator returns exactly the portfolio
sum, the probability-weighted expected recovery, the 12 percent internal
commission saving projected threefold, the automatic allocation rate, the
count of scores below 30 and the mean confidence. -/
theorem kpis_formulas (df : List AllocatedRecord) (h : df ≠ []) :
    calculate_enterprise_kpis df = some
      { portfolio_value := (df.map (fun r => r.amount)).sum,
        expected_recovery_value := (df.map (fun r => r.amount * (r.p2p_score / 100))).sum,
        commission_savings_90d :=
          0.12 * ((df.filter (fun r => r.assigned_agency = "FedEx Internal Team")).map
            (fun r => r.amount)).sum * 3,
        auto_allocation_rate :=
          ((df.filter (fun r => r.requires_manual_review = false)).length : ℚ) / (df.length : ℚ),
        high_risk_cases := (df.filter (fun r => decide (r.p2p_score < 30))).length,
        avg_confidence_score := (df.map (fun r => r.p2p_confidence)).sum / (df.length : ℚ) } := by
  have hlen : ¬ df.length = 0 := by simpa using h
  simp only [calculate_enterprise_kpis, hlen, if_false, Option.some.injEq,
    EnterpriseKpis.mk.injEq, eq_self_iff_true, true_and, and_true]
  ring

/-- Witness instantiating kpis_formulas on a concrete one-record batch. -/
theorem kpis_formulas_witness :
    calculate_enterprise_kpis [⟨"A1", 6000, 10, "Enterprise", 0, 88.3, 0.855,
        "FedEx Internal Team", false⟩] = some
      { portfolio_value := ([⟨"A1", 6000, 10, "Enterprise", 0, 88.3, 0.855,
          "FedEx Internal Team", false⟩].map (fun r : AllocatedRecord => r.amount)).sum,
        expected_recovery_value := ([⟨"A1", 6000, 10, "Enterprise", 0, 88.3, 0.855,
          "FedEx Internal Team", false⟩].map
            (fun r : AllocatedRecord => r.amount * (r.p2p_score / 100))).sum,
        commission_savings_90d := 0.12 * (([⟨"A1", 6000, 10, "Enterprise", 0, 88.3, 0.855,
          "FedEx Internal Team", false⟩].filter
            (fun r : AllocatedRecord => r.assigned_agency = "FedEx Internal Team")).map
              (fun r : AllocatedRecord => r.amount)).sum * 3,
        auto_allocation_rate := ((([⟨"A1", 6000, 10, "Enterprise", 0, 88.3, 0.855,
          "FedEx Internal Team", false⟩].filter
            (fun r : AllocatedRecord => r.requires_manual_review = false)).length : ℚ) /
              (([⟨"A1", 6000, 10, "Enterprise", 0, 88.3, 0.855,
                "FedEx Internal Team", false⟩] : List AllocatedRecord).length : ℚ)),
        high_risk_cases := ([⟨"A1", 6000, 10, "Enterprise", 0, 88.3, 0.855,
          "FedEx Internal Team", false⟩].filter
            (fun r : AllocatedRecord => decide (r.p2p_score < 30))).length,
        avg_confidence_score := (([⟨"A1", 6000, 10, "Enterprise", 0, 88.3, 0.855,
          "FedEx Internal Team", false⟩].map
            (fun r : AllocatedRecord => r.p2p_confidence)).sum /
              (([⟨"A1", 6000, 10, "Enterprise", 0, 88.3, 0.855,
                "FedEx Internal Team", false⟩] : List AllocatedRecord).length : ℚ)) } :=
  kpis_formulas [⟨"A1", 6000, 10, "Enterprise", 0, 88.3, 0.855,
    "FedEx Internal Team", false⟩] (by simp)

/-- C7: a missing config, a missing input batch, or a batch left empty by
validation each end the run with no snapshot, and the aggregator called on
an empty batch yields no value instead of an undefined rate, mirroring the
ZeroDivisionError the source would raise. -/
theorem fatal_conditions (cfg : GovernanceConfig) (input : List RawRecord)
    (t1 t2 t3 : String) (h : (validate_data input).1 = []) :
    main_pipeline none (some input) t1 = none ∧
    main_pipeline (some cfg) none t2 = none ∧
    main_pipeline (some cfg) (some input) t3 = none ∧
    calculate_enterprise_kpis [] = none := by
  refine ⟨rfl, rfl, ?_, rfl⟩
  simp [main_pipeline, h]

/-- Witness instantiating fatal_conditions on the empty input batch. -/
theorem fatal_conditions_witness :
    main_pipeline none (some []) "" = none ∧
    main_pipeline (some default_thresholds) none "" = none ∧
    main_pipeline (some default_thresholds) (some []) "" = none ∧
    calculate_enterprise_kpis [] = none :=
  fatal_conditions default_thresholds [] "" "" "" rfl

/-- C8: the scorer is a pure function, two applications to the same record
and config coincide, and two whole runs on the same input and config
produce the same snapshot up to the timestamp, every other field of the
output being identical. -/
theorem pipeline_deterministic (row : RawRecord) (config : Option GovernanceConfig)
    (input : Option (List RawRecord)) (t1 t2 : String) :
    calculate_hybrid_score row config = calculate_hybrid_score row config ∧
    Option.map snapshot_core (main_pipeline config input t1)
      = Option.map snapshot_core (main_pipeline config input t2) := by
  refine ⟨rfl, ?_⟩
  cases config with
  | none => rfl
  | some cfg =>
    cases input with
    | none => rfl
    | some raw =>
      simp only [main_pipeline]
      split_ifs with h
      · rfl
      · cases hk : calculate_enterprise_kpis (pipeline_allocated cfg raw) <;>
          simp [hk, snapshot_core]

/-- The scenario input record of the spec. -/
def demo_record : RawRecord := ⟨"A1", 6000, 10, "Enterprise", 0⟩

/-- The allocated record the pipeline derives from the scenario record. -/
def demo_allocated : AllocatedRecord :=
  ⟨"A1", 6000, 10, "Enterprise", 0, 88.3, 0.855, "FedEx Internal Team", false⟩

/-- The snapshot a run on the one-record scenario batch exports. -/
def demo_snapshot : Snapshot :=
  { meta :=
      { timestamp := "",
        version := "SmartRecover v2.0",
        kpis :=
          { portfolio_value := 6000,
            expected_recovery_value := 5298,
            commission_savings_90d := 2160,
            auto_allocation_rate := 1,
            high_risk_cases := 0,
            avg_confidence_score := 0.855 },
        governance_flags :=
          { data_quality_score := 0.94,
            fairness_variance := 0.08,
            retraining_eligible := true } },
    allocations :=
      [{ tokenized_id := "FED-16a36e86",
         amount := 6000,
         p2p_score := 88.3,
         p2p_confidence := 0.855,
         assigned_agency := "FedEx Internal Team",
         requires_manual_review := false }] }

lemma demo_validate : validate_data [demo_record] = ([demo_record], 0) := by
  simp [validate_data, demo_record]

lemma demo_score :
    calculate_hybrid_score demo_record (some default_thresholds) = (88.3, 0.855) := by
  simp [calculate_hybrid_score, segment_weights, default_thresholds, demo_record]
  norm_num [min_def, max_def, abs_of_nonneg]

lemma demo_scored :
    scoreRecord (some default_thresholds) demo_record
      = ⟨"A1", 6000, 10, "Enterprise", 0, 88.3, 0.855⟩ := by
  simp only [scoreRecord]
  rw [demo_score]
  simp [demo_record]

lemma demo_assign :
    assign_dca_with_governance ⟨"A1", 6000, 10, "Enterprise", 0, 88.3, 0.855⟩
      (some default_thresholds) 0.855 = "FedEx Internal Team" := by
  norm_num [assign_dca_with_governance, default_thresholds]

lemma demo_alloc_eq :
    pipeline_allocated default_thresholds [demo_record] = [demo_allocated] := by
  simp [pipeline_allocated, demo_validate, demo_scored, allocateRecord, demo_assign,
    demo_allocated]
  norm_num [default_thresholds]

lemma demo_kpis :
    calculate_enterprise_kpis [demo_allocated] = some ⟨6000, 5298, 2160, 1, 0, 0.855⟩ := by
  simp only [calculate_enterprise_kpis, demo_allocated, List.length_cons, List.length_nil,
    List.filter_cons, List.filter_nil, List.map_cons, List.map_nil, List.sum_cons,
    List.sum_nil]
  norm_num

set_option maxRecDepth 100000 in
lemma demo_token : tokenize "A1" = "FED-16a36e86" := by decide

lemma demo_pipeline :
    main_pipeline (some default_thresholds) (some [demo_record]) "" = some demo_snapshot := by
  simp only [main_pipeline, demo_validate, List.isEmpty_cons, Bool.false_eq_true, if_false]
  rw [demo_alloc_eq, demo_kpis]
  simp [demo_snapshot, exportAllocation, demo_allocated, demo_token]

/-- C9: a run that exports a snapshot exports exactly the routed batch
mapped through the anonymizing projection: every entry carries the six
anonymized fields of its record, its tokenized id is the FED- prefix plus
the first 8 hex characters of the SHA-256 digest of the account id, and
the projection depends on the account id only through that digest, so the
raw id never reaches the snapshot. -/
theorem anonymized_export (cfg : GovernanceConfig) (input : List RawRecord) (t : String)
    (snap : Snapshot) (a1 a2 : String) (r : AllocatedRecord)
    (hs : main_pipeline (some cfg) (some input) t = some snap)
    (hid : sha256Hex a1 = sha256Hex a2) :
    snap.allocations = (pipeline_allocated cfg input).map exportAllocation ∧
    (∀ a ∈ snap.allocations, ∃ rec ∈ pipeline_allocated cfg input,
        a = exportAllocation rec ∧
        a.tokenized_id = "FED-" ++ (sha256Hex rec.account_id).take 8) ∧
    exportAllocation { r with account_id := a1 }
      = exportAllocation { r with account_id := a2 } := by
  have h1 : snap.allocations = (pipeline_allocated cfg input).map exportAllocation := by
    simp only [main_pipeline] at hs
    split_ifs at hs
    · cases hk : calculate_enterprise_kpis (pipeline_allocated cfg input) with
      | none => rw [hk] at hs; exact Option.noConfusion hs
      | some k =>
          rw [hk] at hs
          simp only [Option.some.injEq] at hs
          rw [← hs]
  refine ⟨h1, ?_, ?_⟩
  · intro a ha
    rw [h1] at ha
    obtain ⟨rec, hrec, hae⟩ := List.mem_map.mp ha
    exact ⟨rec, hrec, hae.symm, by rw [← hae]; rfl⟩
  · simp [exportAllocation, tokenize, hid]

/-- Witness instantiating anonymized_export on the scenario run. -/
theorem anonymized_export_witness :
    demo_snapshot.allocations
      = (pipeline_allocated default_thresholds [demo_record]).map exportAllocation ∧
    (∀ a ∈ demo_snapshot.allocations,
        ∃ rec ∈ pipeline_allocated default_thresholds [demo_record],
        a = exportAllocation rec ∧
        a.tokenized_id = "FED-" ++ (sha256Hex rec.account_id).take 8) ∧
    exportAllocation { demo_allocated with account_id := "A1" }
      = exportAllocation { demo_allocated with account_id := "A1" } :=
  anonymized_export default_thresholds [demo_record] "" demo_snapshot "A1" "A1"
    demo_allocated demo_pipeline rfl

end SmartRecover
